import Mathlib

/-!
Verification development for the composite-image creator
(`composite_image_creator.py`).  The Python source is shallowly embedded:
PIL images become a structure of integer dimensions, a colour mode tag and
a pixel map; the arrangement ladder, validation and scaling of
`create_composite_image` are translated branch by branch.
-/

namespace CompImage

/-- Colour value: an RGB triple of channel intensities. -/
abbrev Color := Nat × Nat × Nat

/-- Background fill colour used by every join (`color='white'`). -/
def white : Color := (255, 255, 255)

/-- Model of a PIL image: pixel dimensions, colour mode and pixel data.
Pixel values outside the `width × height` box are irrelevant; every
statement below quantifies only over in-bounds coordinates. -/
structure Img where
  width : Nat
  height : Nat
  mode : String
  px : Nat → Nat → Color

/-- Default image used only to make guarded list indexing total; in the
source every such index access is protected by a length test. -/
def dfltImg : Img := ⟨0, 0, "RGB", fun _ _ => white⟩

/-- Check if an image is in portrait orientation (height > width),
source lines 23-26. -/
def is_portrait (img : Img) : Bool := img.height > img.width

/-- Check if an image is in landscape orientation (width > height),
source lines 29-32. -/
def is_landscape (img : Img) : Bool := img.width > img.height

/-- Model of `PIL.Image.new(mode, size, color)`: a constant canvas. -/
def image_new (mode : String) (size : Nat × Nat) (color : Color) : Img :=
  ⟨size.1, size.2, mode, fun _ _ => color⟩

/-- Model of `base.paste(img, pos)`: pixels inside the pasted box take the
pasted image's values, the rest keep the base canvas. -/
def paste (base img : Img) (pos : Nat × Nat) : Img :=
  { base with px := fun x y =>
      if pos.1 ≤ x ∧ x < pos.1 + img.width ∧ pos.2 ≤ y ∧ y < pos.2 + img.height then
        img.px (x - pos.1) (y - pos.2)
      else base.px x y }

/-- Join two PIL Image objects horizontally, source lines 75-84. -/
def join_pil_images_horizontally (img1 img2 : Img) : Img :=
  let width := img1.width + img2.width
  let height := max img1.height img2.height
  let combined_img := image_new "RGB" (width, height) white
  let combined_img := paste combined_img img1 (0, 0)
  let combined_img := paste combined_img img2 (img1.width, 0)
  combined_img

/-- Join two PIL Image objects vertically, source lines 87-96. -/
def join_pil_images_vertically (img1 img2 : Img) : Img :=
  let width := max img1.width img2.width
  let height := img1.height + img2.height
  let combined_img := image_new "RGB" (width, height) white
  let combined_img := paste combined_img img1 (0, 0)
  let combined_img := paste combined_img img2 (0, img1.height)
  combined_img

/-- Join two images given by path, source lines 41-55.  `Image.open` is
modelled as yielding the already-loaded image, after which the body
coincides with the PIL-object variant. -/
def join_images_horizontally (img1 img2 : Img) : Img :=
  join_pil_images_horizontally img1 img2

/-- Join two images given by path, source lines 58-72. -/
def join_images_vertically (img1 img2 : Img) : Img :=
  join_pil_images_vertically img1 img2

/-- Calculate how far the aspect ratio is from square (1.0), source
lines 99-102.  Python float arithmetic is modelled exactly over ℚ. -/
def calculate_aspect_ratio_diff (width height : Nat) : ℚ :=
  |(width : ℚ) / (height : ℚ) - 1|

/-- Candidate comparison repeated five times in `create_composite_image`
(source lines 166-174, 184-190, 196-202, 212-218, 224-230): build the
vertical candidate `option1` and the horizontal candidate `option2`,
score both, and keep `option1` when `diff1 <= diff2`. -/
def pick_arrangement (a b : Img) : Img :=
  let option1 := join_pil_images_vertically a b
  let option2 := join_pil_images_horizontally a b
  let diff1 := calculate_aspect_ratio_diff option1.width option1.height
  let diff2 := calculate_aspect_ratio_diff option2.width option2.height
  if diff1 ≤ diff2 then option1 else option2

/-- Arrangement ladder of `create_composite_image`, source lines 126-241:
the post-validation portion that selects and executes a strategy. -/
def arrange_images (image_paths : List Img) : Img :=
  let portrait_images := image_paths.filter is_portrait
  let landscape_images := image_paths.filter is_landscape
  if landscape_images.length = 4 then
    let left_pair := join_images_vertically (landscape_images.getD 0 dfltImg)
      (landscape_images.getD 1 dfltImg)
    let right_pair := join_images_vertically (landscape_images.getD 2 dfltImg)
      (landscape_images.getD 3 dfltImg)
    join_pil_images_horizontally left_pair right_pair
  else if portrait_images.length = 4 then
    let top_pair := join_images_horizontally (portrait_images.getD 0 dfltImg)
      (portrait_images.getD 1 dfltImg)
    let bottom_pair := join_images_horizontally (portrait_images.getD 2 dfltImg)
      (portrait_images.getD 3 dfltImg)
    join_pil_images_vertically top_pair bottom_pair
  else if 2 ≤ portrait_images.length ∧ 2 ≤ landscape_images.length then
    let portrait_combined := join_images_horizontally (portrait_images.getD 0 dfltImg)
      (portrait_images.getD 1 dfltImg)
    let landscape_combined := join_images_vertically (landscape_images.getD 0 dfltImg)
      (landscape_images.getD 1 dfltImg)
    pick_arrangement portrait_combined landscape_combined
  else if 3 ≤ portrait_images.length then
    let portrait_pair := join_images_horizontally (portrait_images.getD 0 dfltImg)
      (portrait_images.getD 1 dfltImg)
    let remaining_img := portrait_images.getD 2 dfltImg
    let combined := pick_arrangement portrait_pair remaining_img
    if 3 < image_paths.length then
      pick_arrangement combined (image_paths.getD 3 dfltImg)
    else combined
  else if 3 ≤ landscape_images.length then
    let landscape_pair := join_images_vertically (landscape_images.getD 0 dfltImg)
      (landscape_images.getD 1 dfltImg)
    let remaining_img := landscape_images.getD 2 dfltImg
    let combined := pick_arrangement landscape_pair remaining_img
    if 3 < image_paths.length then
      pick_arrangement combined (image_paths.getD 3 dfltImg)
    else combined
  else
    let top_row := join_images_horizontally (image_paths.getD 0 dfltImg)
      (image_paths.getD 1 dfltImg)
    let bottom_row := join_images_horizontally (image_paths.getD 2 dfltImg)
      (image_paths.getD 3 dfltImg)
    join_pil_images_vertically top_row bottom_row

/-- Orientation classification derived from an image's dimensions
(spec §4.1): portrait iff height > width, landscape iff width > height,
square otherwise. -/
inductive Orientation where
  | portrait
  | landscape
  | square
deriving DecidableEq, Repr

/-- Classify an image by its dimensions alone. -/
def classify (img : Img) : Orientation :=
  if img.height > img.width then .portrait
  else if img.width > img.height then .landscape
  else .square

/-- Identifier of the six arrangement strategies of the ladder in
`create_composite_image`. -/
inductive Strategy where
  | fourLandscape
  | fourPortrait
  | mixed
  | threePortrait
  | threeLandscape
  | grid
deriving DecidableEq, Repr

/-- Strategy picked by the if/elif ladder of `create_composite_image`
(source lines 134, 146, 158, 176, 204, 231), computed exactly from the
filtered orientation lists the source builds at lines 126-128. -/
def strategyOf (image_paths : List Img) : Strategy :=
  let portrait_images := image_paths.filter is_portrait
  let landscape_images := image_paths.filter is_landscape
  if landscape_images.length = 4 then .fourLandscape
  else if portrait_images.length = 4 then .fourPortrait
  else if 2 ≤ portrait_images.length ∧ 2 ≤ landscape_images.length then .mixed
  else if 3 ≤ portrait_images.length then .threePortrait
  else if 3 ≤ landscape_images.length then .threeLandscape
  else .grid

/-- Strategy ladder exactly as the claim words it, as a function of the
four orientation labels alone: all landscape, all portrait, at least two
of each, at least three portraits, at least three landscapes, else grid. -/
def strategy_of_labels (labels : List Orientation) : Strategy :=
  if labels.count .landscape = 4 then .fourLandscape
  else if labels.count .portrait = 4 then .fourPortrait
  else if 2 ≤ labels.count .portrait ∧ 2 ≤ labels.count .landscape then .mixed
  else if 3 ≤ labels.count .portrait then .threePortrait
  else if 3 ≤ labels.count .landscape then .threeLandscape
  else .grid

/-- Executor of one strategy: the corresponding branch body of
`create_composite_image`, applied to the four input images. -/
def run_strategy (s : Strategy) (image_paths : List Img) : Img :=
  let portrait_images := image_paths.filter is_portrait
  let landscape_images := image_paths.filter is_landscape
  match s with
  | .fourLandscape =>
    join_pil_images_horizontally
      (join_images_vertically (landscape_images.getD 0 dfltImg) (landscape_images.getD 1 dfltImg))
      (join_images_vertically (landscape_images.getD 2 dfltImg) (landscape_images.getD 3 dfltImg))
  | .fourPortrait =>
    join_pil_images_vertically
      (join_images_horizontally (portrait_images.getD 0 dfltImg) (portrait_images.getD 1 dfltImg))
      (join_images_horizontally (portrait_images.getD 2 dfltImg) (portrait_images.getD 3 dfltImg))
  | .mixed =>
    pick_arrangement
      (join_images_horizontally (portrait_images.getD 0 dfltImg) (portrait_images.getD 1 dfltImg))
      (join_images_vertically (landscape_images.getD 0 dfltImg) (landscape_images.getD 1 dfltImg))
  | .threePortrait =>
    let combined := pick_arrangement
      (join_images_horizontally (portrait_images.getD 0 dfltImg) (portrait_images.getD 1 dfltImg))
      (portrait_images.getD 2 dfltImg)
    if 3 < image_paths.length then
      pick_arrangement combined (image_paths.getD 3 dfltImg)
    else combined
  | .threeLandscape =>
    let combined := pick_arrangement
      (join_images_vertically (landscape_images.getD 0 dfltImg) (landscape_images.getD 1 dfltImg))
      (landscape_images.getD 2 dfltImg)
    if 3 < image_paths.length then
      pick_arrangement combined (image_paths.getD 3 dfltImg)
    else combined
  | .grid =>
    join_pil_images_vertically
      (join_images_horizontally (image_paths.getD 0 dfltImg) (image_paths.getD 1 dfltImg))
      (join_images_horizontally (image_paths.getD 2 dfltImg) (image_paths.getD 3 dfltImg))

/-- Model of PIL `resize` (LANCZOS).  The resampling filter itself is
external library code; its pixel content is modelled as a deterministic
sampler of the source pixels.  The claims below use only the dimensions
of the result and the fact that it is a deterministic function of the
source image's in-bounds pixel data. -/
def resize (img : Img) (w h : Nat) : Img :=
  ⟨w, h, img.mode, fun x y => img.px (x * img.width / w) (y * img.height / h)⟩

/-- Downscaling step of `create_composite_image`, source lines 242-249:
only applied when the factor is strictly below 1; new dimensions are
`int(original * factor)` per axis, i.e. the floor for nonnegative
values. -/
def downscale_step (final_image : Img) (downscale_factor : ℚ) : Img :=
  if downscale_factor < 1 then
    let new_width := (⌊(final_image.width : ℚ) * downscale_factor⌋).toNat
    let new_height := (⌊(final_image.height : ℚ) * downscale_factor⌋).toNat
    resize final_image new_width new_height
  else final_image

/-- Python exception kinds raised by `create_composite_image`. -/
inductive PyErr where
  | valueError (msg : String)
  | fileNotFoundError (msg : String)
deriving DecidableEq, Repr

/-- Human-readable message of an exception (`str(e)` in `main`). -/
def pyErrMessage : PyErr → String
  | .valueError m => m
  | .fileNotFoundError m => m

/-- One command-line image argument: its path, whether `os.path.isfile`
holds for it, and the image it decodes to. -/
structure ImgFile where
  path : String
  isFile : Bool
  img : Img

/-- Shallow embedding of `create_composite_image`, source lines 105-255:
validation (count, scale factor, file existence, in that order), then the
arrangement ladder, then the optional downscale.  Saving the file is I/O
and is not part of the returned value. -/
def create_composite_image (image_paths : List ImgFile) (downscale_factor : ℚ) :
    Except PyErr Img :=
  if image_paths.length ≠ 4 then
    .error (.valueError "Exactly 4 images are required")
  else if downscale_factor ≤ 0 ∨ 1 < downscale_factor then
    .error (.valueError "Downscale factor must be between 0 and 1")
  else
    match image_paths.find? (fun f => !f.isFile) with
    | some f => .error (.fileNotFoundError ("Image file not found: " ++ f.path))
    | none =>
      let final_image := arrange_images (image_paths.map (fun f => f.img))
      .ok (downscale_step final_image downscale_factor)

/-- Observable outcome of one command-line run. -/
structure MainResult where
  exitCode : Nat
  stdout : List String
  stderr : List String
deriving DecidableEq, Repr

/-- Shallow embedding of `main`, source lines 284-311.  The `argparse`
library rejects a wrong count of positional image arguments itself,
writing a usage message to standard error and exiting with code 2 before
the try block runs (library behaviour, modelled).  Otherwise
`create_composite_image` runs inside a try: an exception is reported by
`print(f"Error: ...")`, which writes to standard output, followed by
`sys.exit(1)`; success exits 0.  Informational log lines on the success
path are not modelled. -/
def main_run (files : List ImgFile) (downscale : ℚ) : MainResult :=
  if files.length ≠ 4 then
    ⟨2, [], ["usage: composite_image_creator.py images images images images output"]⟩
  else
    match create_composite_image files downscale with
    | .error e => ⟨1, ["Error: " ++ pyErrMessage e], []⟩
    | .ok _ => ⟨0, [], []⟩

/-- Provenance-instrumented image: same dimensions as `Img`, but the
payload records the multiset (as an ordered list) of input indices whose
pixel data has been pasted into the canvas.  Used to reason about which
inputs appear in the final composite. -/
structure TImg where
  width : Nat
  height : Nat
  srcs : List Nat
deriving DecidableEq, Repr

/-- Default used for guarded indexing in the instrumented ladder. -/
def tDflt : TImg := ⟨0, 0, []⟩

/-- Instrumented portrait test, same dimension test as `is_portrait`. -/
def t_is_portrait (img : TImg) : Bool := img.height > img.width

/-- Instrumented landscape test, same dimension test as `is_landscape`. -/
def t_is_landscape (img : TImg) : Bool := img.width > img.height

/-- Instrumented horizontal join: canvas dimensions as in
`join_pil_images_horizontally`; the provenance lists concatenate in paste
order (first image, then second). -/
def tJoinH (img1 img2 : TImg) : TImg :=
  ⟨img1.width + img2.width, max img1.height img2.height, img1.srcs ++ img2.srcs⟩

/-- Instrumented vertical join: canvas dimensions as in
`join_pil_images_vertically`. -/
def tJoinV (img1 img2 : TImg) : TImg :=
  ⟨max img1.width img2.width, img1.height + img2.height, img1.srcs ++ img2.srcs⟩

/-- Instrumented candidate comparison: same scores and same tie-break as
`pick_arrangement`. -/
def tPick (a b : TImg) : TImg :=
  let option1 := tJoinV a b
  let option2 := tJoinH a b
  let diff1 := calculate_aspect_ratio_diff option1.width option1.height
  let diff2 := calculate_aspect_ratio_diff option2.width option2.height
  if diff1 ≤ diff2 then option1 else option2

/-- Instrumented copy of the arrangement ladder `arrange_images`
(source lines 126-241), over provenance-carrying images: every branch
condition and every join mirrors the source; only the payload differs. -/
def arrange_images_trace (image_paths : List TImg) : TImg :=
  let portrait_images := image_paths.filter t_is_portrait
  let landscape_images := image_paths.filter t_is_landscape
  if landscape_images.length = 4 then
    let left_pair := tJoinV (landscape_images.getD 0 tDflt) (landscape_images.getD 1 tDflt)
    let right_pair := tJoinV (landscape_images.getD 2 tDflt) (landscape_images.getD 3 tDflt)
    tJoinH left_pair right_pair
  else if portrait_images.length = 4 then
    let top_pair := tJoinH (portrait_images.getD 0 tDflt) (portrait_images.getD 1 tDflt)
    let bottom_pair := tJoinH (portrait_images.getD 2 tDflt) (portrait_images.getD 3 tDflt)
    tJoinV top_pair bottom_pair
  else if 2 ≤ portrait_images.length ∧ 2 ≤ landscape_images.length then
    let portrait_combined := tJoinH (portrait_images.getD 0 tDflt) (portrait_images.getD 1 tDflt)
    let landscape_combined := tJoinV (landscape_images.getD 0 tDflt) (landscape_images.getD 1 tDflt)
    tPick portrait_combined landscape_combined
  else if 3 ≤ portrait_images.length then
    let portrait_pair := tJoinH (portrait_images.getD 0 tDflt) (portrait_images.getD 1 tDflt)
    let remaining_img := portrait_images.getD 2 tDflt
    let combined := tPick portrait_pair remaining_img
    if 3 < image_paths.length then
      tPick combined (image_paths.getD 3 tDflt)
    else combined
  else if 3 ≤ landscape_images.length then
    let landscape_pair := tJoinV (landscape_images.getD 0 tDflt) (landscape_images.getD 1 tDflt)
    let remaining_img := landscape_images.getD 2 tDflt
    let combined := tPick landscape_pair remaining_img
    if 3 < image_paths.length then
      tPick combined (image_paths.getD 3 tDflt)
    else combined
  else
    let top_row := tJoinH (image_paths.getD 0 tDflt) (image_paths.getD 1 tDflt)
    let bottom_row := tJoinH (image_paths.getD 2 tDflt) (image_paths.getD 3 tDflt)
    tJoinV top_row bottom_row

section JoinLemmas

theorem joinH_width (a b : Img) : (join_pil_images_horizontally a b).width = a.width + b.width := rfl

theorem joinH_height (a b : Img) :
    (join_pil_images_horizontally a b).height = max a.height b.height := rfl

theorem joinH_mode (a b : Img) : (join_pil_images_horizontally a b).mode = "RGB" := rfl

theorem joinV_width (a b : Img) : (join_pil_images_vertically a b).width = max a.width b.width := rfl

theorem joinV_height (a b : Img) :
    (join_pil_images_vertically a b).height = a.height + b.height := rfl

theorem joinV_mode (a b : Img) : (join_pil_images_vertically a b).mode = "RGB" := rfl

theorem joinH_px (a b : Img) (x y : Nat) :
    (join_pil_images_horizontally a b).px x y =
      if a.width ≤ x ∧ x < a.width + b.width ∧ y < b.height then b.px (x - a.width) y
      else if x < a.width ∧ y < a.height then a.px x y
      else white := by
  simp [join_pil_images_horizontally, paste, image_new]

theorem joinV_px (a b : Img) (x y : Nat) :
    (join_pil_images_vertically a b).px x y =
      if x < b.width ∧ a.height ≤ y ∧ y < a.height + b.height then b.px x (y - a.height)
      else if x < a.width ∧ y < a.height then a.px x y
      else white := by
  simp [join_pil_images_vertically, paste, image_new]

end JoinLemmas

/-- C2: for images `a` and `b` with positive dimensions, the horizontal
join has width `a.width + b.width` and height `max a.height b.height`,
with `a` placed at (0,0), `b` at (a.width, 0), and every canvas pixel
covered by neither source filled white; the vertical join is symmetric on
the height axis. -/
theorem c2_pairwise_join_contract (a b : Img)
    (ha1 : 0 < a.width) (ha2 : 0 < a.height) (hb1 : 0 < b.width) (hb2 : 0 < b.height) :
    ((join_pil_images_horizontally a b).width = a.width + b.width ∧
     (join_pil_images_horizontally a b).height = max a.height b.height ∧
     (∀ x y, x < a.width → y < a.height →
        (join_pil_images_horizontally a b).px x y = a.px x y) ∧
     (∀ x y, x < b.width → y < b.height →
        (join_pil_images_horizontally a b).px (a.width + x) y = b.px x y) ∧
     (∀ x y, x < a.width + b.width → y < max a.height b.height →
        ¬(x < a.width ∧ y < a.height) → ¬(a.width ≤ x ∧ y < b.height) →
        (join_pil_images_horizontally a b).px x y = white)) ∧
    ((join_pil_images_vertically a b).width = max a.width b.width ∧
     (join_pil_images_vertically a b).height = a.height + b.height ∧
     (∀ x y, x < a.width → y < a.height →
        (join_pil_images_vertically a b).px x y = a.px x y) ∧
     (∀ x y, x < b.width → y < b.height →
        (join_pil_images_vertically a b).px x (a.height + y) = b.px x y) ∧
     (∀ x y, x < max a.width b.width → y < a.height + b.height →
        ¬(x < a.width ∧ y < a.height) → ¬(a.height ≤ y ∧ x < b.width) →
        (join_pil_images_vertically a b).px x y = white)) := by
  refine ⟨⟨rfl, rfl, ?_, ?_, ?_⟩, ⟨rfl, rfl, ?_, ?_, ?_⟩⟩
  · intro x y hx hy
    rw [joinH_px]
    split_ifs with h1 h2
    · omega
    · rfl
    · omega
  · intro x y hx hy
    rw [joinH_px]
    split_ifs with h1 h2
    · simp [Nat.add_sub_cancel_left]
    · omega
    · omega
  · intro x y hx hy hna hnb
    rw [joinH_px]
    split_ifs <;> first | rfl | omega
  · intro x y hx hy
    rw [joinV_px]
    split_ifs with h1 h2
    · omega
    · rfl
    · omega
  · intro x y hx hy
    rw [joinV_px]
    split_ifs with h1 h2
    · simp [Nat.add_sub_cancel_left]
    · omega
    · omega
  · intro x y hx hy hna hnb
    rw [joinV_px]
    split_ifs <;> first | rfl | omega

/-- Witness for C2 at `a` = 2×1 red-ish image, `b` = 1×2 image: the join
dimensions, both placements and a white padding pixel, evaluated
concretely. -/
theorem c2_pairwise_join_contract_witness :
    (0 < 2 ∧ 0 < 1) ∧
    (join_pil_images_horizontally ⟨2, 1, "RGBA", fun _ _ => (10, 0, 0)⟩
        ⟨1, 2, "L", fun _ _ => (0, 20, 0)⟩).width = 3 ∧
    (join_pil_images_horizontally ⟨2, 1, "RGBA", fun _ _ => (10, 0, 0)⟩
        ⟨1, 2, "L", fun _ _ => (0, 20, 0)⟩).px 0 0 = (10, 0, 0) ∧
    (join_pil_images_horizontally ⟨2, 1, "RGBA", fun _ _ => (10, 0, 0)⟩
        ⟨1, 2, "L", fun _ _ => (0, 20, 0)⟩).px 2 1 = (0, 20, 0) ∧
    (join_pil_images_horizontally ⟨2, 1, "RGBA", fun _ _ => (10, 0, 0)⟩
        ⟨1, 2, "L", fun _ _ => (0, 20, 0)⟩).px 0 1 = white := by
  have h := c2_pairwise_join_contract ⟨2, 1, "RGBA", fun _ _ => (10, 0, 0)⟩
    ⟨1, 2, "L", fun _ _ => (0, 20, 0)⟩ (by decide) (by decide) (by decide) (by decide)
  refine ⟨⟨by decide, by decide⟩, h.1.1, ?_, ?_, ?_⟩
  · exact h.1.2.2.1 0 0 (by decide) (by decide)
  · exact h.1.2.2.2.1 0 1 (by decide) (by decide)
  · exact h.1.2.2.2.2 0 1 (by decide) (by decide) (by decide) (by decide)

theorem pick_arrangement_mode (a b : Img) : (pick_arrangement a b).mode = "RGB" := by
  simp only [pick_arrangement]
  split <;> rfl

/-- C10: every image produced by a join is an RGB-mode image over a white
background canvas, whatever the colour modes of the two inputs (so an
alpha channel of an input is not carried into the joined output), and
consequently every composite produced by the arrangement ladder has mode
RGB. -/
theorem c10_joins_rgb_white_background (a b : Img) (imgs : List Img) :
    (join_pil_images_horizontally a b).mode = "RGB" ∧
    (join_pil_images_vertically a b).mode = "RGB" ∧
    (join_images_horizontally a b).mode = "RGB" ∧
    (join_images_vertically a b).mode = "RGB" ∧
    (arrange_images imgs).mode = "RGB" ∧
    (∀ x y, ¬(a.width ≤ x ∧ x < a.width + b.width ∧ y < b.height) →
       ¬(x < a.width ∧ y < a.height) →
       (join_pil_images_horizontally a b).px x y = white) ∧
    (∀ x y, ¬(x < b.width ∧ a.height ≤ y ∧ y < a.height + b.height) →
       ¬(x < a.width ∧ y < a.height) →
       (join_pil_images_vertically a b).px x y = white) := by
  refine ⟨rfl, rfl, rfl, rfl, ?_, ?_, ?_⟩
  · simp only [arrange_images]
    split_ifs <;> first | exact pick_arrangement_mode _ _ | rfl
  · intro x y h1 h2
    rw [joinH_px, if_neg h1, if_neg h2]
  · intro x y h1 h2
    rw [joinV_px, if_neg h1, if_neg h2]

/-- Witness for C10 at an RGBA and a greyscale input: the joins have mode
RGB, the grid composite of four copies has mode RGB, and an uncovered
canvas pixel is white. -/
theorem c10_joins_rgb_white_background_witness :
    (join_pil_images_horizontally ⟨2, 1, "RGBA", fun _ _ => (1, 2, 3)⟩
        ⟨1, 2, "L", fun _ _ => (4, 5, 6)⟩).mode = "RGB" ∧
    (arrange_images [⟨2, 1, "RGBA", fun _ _ => (1, 2, 3)⟩, ⟨1, 2, "L", fun _ _ => (4, 5, 6)⟩,
        ⟨1, 1, "P", fun _ _ => (7, 8, 9)⟩, ⟨1, 1, "CMYK", fun _ _ => (3, 3, 3)⟩]).mode = "RGB" ∧
    (join_pil_images_horizontally ⟨2, 1, "RGBA", fun _ _ => (1, 2, 3)⟩
        ⟨1, 2, "L", fun _ _ => (4, 5, 6)⟩).px 1 1 = white := by
  have h := c10_joins_rgb_white_background ⟨2, 1, "RGBA", fun _ _ => (1, 2, 3)⟩
    ⟨1, 2, "L", fun _ _ => (4, 5, 6)⟩
    [⟨2, 1, "RGBA", fun _ _ => (1, 2, 3)⟩, ⟨1, 2, "L", fun _ _ => (4, 5, 6)⟩,
     ⟨1, 1, "P", fun _ _ => (7, 8, 9)⟩, ⟨1, 1, "CMYK", fun _ _ => (3, 3, 3)⟩]
  exact ⟨h.1, h.2.2.2.2.1, h.2.2.2.2.2.1 1 1 (by decide) (by decide)⟩

theorem classify_portrait_iff (a : Img) : classify a = .portrait ↔ is_portrait a = true := by
  unfold classify is_portrait
  split_ifs with h1 h2 <;> simp_all

theorem classify_landscape_iff (a : Img) : classify a = .landscape ↔ is_landscape a = true := by
  unfold classify is_landscape
  split_ifs with h1 h2 <;> simp_all <;> omega

theorem filter_portrait_length (l : List Img) :
    (l.filter is_portrait).length = (l.map classify).count .portrait := by
  induction l with
  | nil => rfl
  | cons a t ih =>
    simp only [List.filter_cons, List.map_cons, List.count_cons, beq_iff_eq]
    by_cases h : is_portrait a = true
    · rw [if_pos h, if_pos ((classify_portrait_iff a).mpr h)]
      simp [ih]
    · rw [if_neg h, if_neg (fun hc => h ((classify_portrait_iff a).mp hc))]
      simp [ih]

theorem filter_landscape_length (l : List Img) :
    (l.filter is_landscape).length = (l.map classify).count .landscape := by
  induction l with
  | nil => rfl
  | cons a t ih =>
    simp only [List.filter_cons, List.map_cons, List.count_cons, beq_iff_eq]
    by_cases h : is_landscape a = true
    · rw [if_pos h, if_pos ((classify_landscape_iff a).mpr h)]
      simp [ih]
    · rw [if_neg h, if_neg (fun hc => h ((classify_landscape_iff a).mp hc))]
      simp [ih]

theorem strategyOf_eq_labels (l : List Img) :
    strategyOf l = strategy_of_labels (l.map classify) := by
  simp only [strategyOf, strategy_of_labels, ← filter_portrait_length, ← filter_landscape_length]

theorem arrange_eq_run_strategy (l : List Img) :
    arrange_images l = run_strategy (strategyOf l) l := by
  simp only [arrange_images, strategyOf, run_strategy]
  split_ifs <;> rfl

/-- C1: the arrangement executed on four images factors through the
strategy ladder applied to their four orientation labels alone: the
ladder tests, in order, all-landscape, all-portrait, at least two of
each, at least three portraits, at least three landscapes, then the 2x2
grid; two inputs with the same labels (whatever their pixel content or
exact dimensions) always select the same strategy. -/
theorem c1_strategy_pure_function_of_labels (image_paths : List Img) :
    arrange_images image_paths =
      run_strategy (strategy_of_labels (image_paths.map classify)) image_paths ∧
    strategyOf image_paths = strategy_of_labels (image_paths.map classify) ∧
    ∀ other : List Img, other.map classify = image_paths.map classify →
      strategyOf other = strategyOf image_paths := by
  refine ⟨?_, strategyOf_eq_labels image_paths, ?_⟩
  · rw [arrange_eq_run_strategy, strategyOf_eq_labels]
  · intro other h
    rw [strategyOf_eq_labels, strategyOf_eq_labels, h]

/-- Witness for C1: two quadruples with the same orientation labels but
different dimensions and pixel data select the same strategy. -/
theorem c1_strategy_pure_function_of_labels_witness :
    ([⟨8, 9, "RGB", fun _ _ => (0, 0, 0)⟩, ⟨5, 1, "L", fun _ _ => (7, 7, 7)⟩,
        ⟨3, 4, "RGBA", fun _ _ => (1, 2, 3)⟩, ⟨9, 2, "RGB", fun _ _ => (5, 5, 5)⟩] :
          List Img).map classify =
      ([⟨1, 2, "P", fun _ _ => (4, 4, 4)⟩, ⟨2, 1, "RGB", fun _ _ => (6, 6, 6)⟩,
        ⟨1, 2, "RGB", fun _ _ => (8, 8, 8)⟩, ⟨4, 3, "CMYK", fun _ _ => (9, 9, 9)⟩] :
          List Img).map classify ∧
    strategyOf [⟨8, 9, "RGB", fun _ _ => (0, 0, 0)⟩, ⟨5, 1, "L", fun _ _ => (7, 7, 7)⟩,
        ⟨3, 4, "RGBA", fun _ _ => (1, 2, 3)⟩, ⟨9, 2, "RGB", fun _ _ => (5, 5, 5)⟩] =
      strategyOf [⟨1, 2, "P", fun _ _ => (4, 4, 4)⟩, ⟨2, 1, "RGB", fun _ _ => (6, 6, 6)⟩,
        ⟨1, 2, "RGB", fun _ _ => (8, 8, 8)⟩, ⟨4, 3, "CMYK", fun _ _ => (9, 9, 9)⟩] := by
  have h := c1_strategy_pure_function_of_labels
    [⟨1, 2, "P", fun _ _ => (4, 4, 4)⟩, ⟨2, 1, "RGB", fun _ _ => (6, 6, 6)⟩,
     ⟨1, 2, "RGB", fun _ _ => (8, 8, 8)⟩, ⟨4, 3, "CMYK", fun _ _ => (9, 9, 9)⟩]
  exact ⟨by decide, h.2.2 _ (by decide)⟩

/-- C4: every candidate comparison of the selector is an application of
`pick_arrangement` (the mixed branch and both steps of the two
three-plus branches), and whenever the two candidates' square-distance
scores are exactly equal `pick_arrangement` returns the vertical-join
(first-listed) candidate. -/
theorem c4_tie_prefers_vertical :
    (∀ a b : Img,
       calculate_aspect_ratio_diff (join_pil_images_vertically a b).width
           (join_pil_images_vertically a b).height =
         calculate_aspect_ratio_diff (join_pil_images_horizontally a b).width
           (join_pil_images_horizontally a b).height →
       pick_arrangement a b = join_pil_images_vertically a b) ∧
    (∀ imgs : List Img, strategyOf imgs = .mixed →
       arrange_images imgs =
         pick_arrangement
           (join_images_horizontally ((imgs.filter is_portrait).getD 0 dfltImg)
             ((imgs.filter is_portrait).getD 1 dfltImg))
           (join_images_vertically ((imgs.filter is_landscape).getD 0 dfltImg)
             ((imgs.filter is_landscape).getD 1 dfltImg))) ∧
    (∀ imgs : List Img, strategyOf imgs = .threePortrait → 3 < imgs.length →
       arrange_images imgs =
         pick_arrangement
           (pick_arrangement
             (join_images_horizontally ((imgs.filter is_portrait).getD 0 dfltImg)
               ((imgs.filter is_portrait).getD 1 dfltImg))
             ((imgs.filter is_portrait).getD 2 dfltImg))
           (imgs.getD 3 dfltImg)) ∧
    (∀ imgs : List Img, strategyOf imgs = .threeLandscape → 3 < imgs.length →
       arrange_images imgs =
         pick_arrangement
           (pick_arrangement
             (join_images_vertically ((imgs.filter is_landscape).getD 0 dfltImg)
               ((imgs.filter is_landscape).getD 1 dfltImg))
             ((imgs.filter is_landscape).getD 2 dfltImg))
           (imgs.getD 3 dfltImg)) := by
  refine ⟨?_, ?_, ?_, ?_⟩
  · intro a b h
    simp only [pick_arrangement]
    rw [if_pos (le_of_eq h)]
  · intro imgs h
    rw [arrange_eq_run_strategy, h]
    rfl
  · intro imgs h h3
    rw [arrange_eq_run_strategy, h]
    simp only [run_strategy]
    rw [if_pos h3]
  · intro imgs h h3
    rw [arrange_eq_run_strategy, h]
    simp only [run_strategy]
    rw [if_pos h3]

/-- Plain white image of the given dimensions, used for concrete inputs. -/
def blank (w h : Nat) : Img := ⟨w, h, "RGB", fun _ _ => white⟩

/-- Concrete quadruple with two portraits and two landscapes. -/
def mixedQuad : List Img := [blank 1 2, blank 2 1, blank 1 2, blank 2 1]

/-- Concrete quadruple with a landscape followed by three portraits. -/
def threePQuad : List Img := [blank 2 1, blank 1 2, blank 1 2, blank 1 2]

/-- Concrete quadruple with a portrait followed by three landscapes. -/
def threeLQuad : List Img := [blank 1 2, blank 2 1, blank 2 1, blank 2 1]

/-- Witness for C4: a 3×2 and a 3×4 image tie (both candidate scores are
1/2) and the vertical join is picked; the mixed, three-portrait and
three-landscape branch equations are instantiated on concrete
quadruples. -/
theorem c4_tie_prefers_vertical_witness :
    (calculate_aspect_ratio_diff
        (join_pil_images_vertically (blank 3 2) (blank 3 4)).width
        (join_pil_images_vertically (blank 3 2) (blank 3 4)).height =
      calculate_aspect_ratio_diff
        (join_pil_images_horizontally (blank 3 2) (blank 3 4)).width
        (join_pil_images_horizontally (blank 3 2) (blank 3 4)).height) ∧
    pick_arrangement (blank 3 2) (blank 3 4) =
      join_pil_images_vertically (blank 3 2) (blank 3 4) ∧
    strategyOf mixedQuad = .mixed ∧
    arrange_images mixedQuad =
      pick_arrangement
        (join_images_horizontally ((mixedQuad.filter is_portrait).getD 0 dfltImg)
          ((mixedQuad.filter is_portrait).getD 1 dfltImg))
        (join_images_vertically ((mixedQuad.filter is_landscape).getD 0 dfltImg)
          ((mixedQuad.filter is_landscape).getD 1 dfltImg)) ∧
    arrange_images threePQuad =
      pick_arrangement
        (pick_arrangement
          (join_images_horizontally ((threePQuad.filter is_portrait).getD 0 dfltImg)
            ((threePQuad.filter is_portrait).getD 1 dfltImg))
          ((threePQuad.filter is_portrait).getD 2 dfltImg))
        (threePQuad.getD 3 dfltImg) ∧
    arrange_images threeLQuad =
      pick_arrangement
        (pick_arrangement
          (join_images_vertically ((threeLQuad.filter is_landscape).getD 0 dfltImg)
            ((threeLQuad.filter is_landscape).getD 1 dfltImg))
          ((threeLQuad.filter is_landscape).getD 2 dfltImg))
        (threeLQuad.getD 3 dfltImg) := by
  have htie : calculate_aspect_ratio_diff
      (join_pil_images_vertically (blank 3 2) (blank 3 4)).width
      (join_pil_images_vertically (blank 3 2) (blank 3 4)).height =
      calculate_aspect_ratio_diff
      (join_pil_images_horizontally (blank 3 2) (blank 3 4)).width
      (join_pil_images_horizontally (blank 3 2) (blank 3 4)).height := by
    show calculate_aspect_ratio_diff 3 6 = calculate_aspect_ratio_diff 6 4
    unfold calculate_aspect_ratio_diff
    norm_num
  refine ⟨htie, c4_tie_prefers_vertical.1 _ _ htie, by decide, ?_, ?_, ?_⟩
  · exact c4_tie_prefers_vertical.2.1 _ (by decide)
  · exact c4_tie_prefers_vertical.2.2.1 _ (by decide) (by decide)
  · exact c4_tie_prefers_vertical.2.2.2 _ (by decide) (by decide)

/-- C5: `create_composite_image` fails with the corresponding error when
the image count is not four, when the downscale factor is outside (0,1],
or when a supplied path is not an existing file; the checks run in that
order before any join, so on an invalid input the result is the same
error whatever pixel data the images hold (no image is combined). -/
theorem c5_validation_before_joins (files : List ImgFile) (f : ℚ) :
    (files.length ≠ 4 →
       create_composite_image files f =
         .error (.valueError "Exactly 4 images are required")) ∧
    (files.length = 4 → (f ≤ 0 ∨ 1 < f) →
       create_composite_image files f =
         .error (.valueError "Downscale factor must be between 0 and 1")) ∧
    (∀ fl : ImgFile, files.length = 4 → 0 < f → f ≤ 1 →
       files.find? (fun x => !x.isFile) = some fl →
       create_composite_image files f =
         .error (.fileNotFoundError ("Image file not found: " ++ fl.path))) ∧
    (∀ g : Img → Img, (create_composite_image files f).isOk = false →
       create_composite_image (files.map fun fl => ⟨fl.path, fl.isFile, g fl.img⟩) f =
         create_composite_image files f) := by
  refine ⟨?_, ?_, ?_, ?_⟩
  · intro h
    unfold create_composite_image
    rw [if_pos h]
  · intro h4 hf
    unfold create_composite_image
    rw [if_neg (not_not_intro h4), if_pos hf]
  · intro fl h4 hpos hle hfind
    unfold create_composite_image
    rw [if_neg (not_not_intro h4), if_neg (by push_neg; exact ⟨hpos, hle⟩), hfind]
  · intro g hok
    by_cases h4 : files.length = 4
    · by_cases hf : f ≤ 0 ∨ 1 < f
      · unfold create_composite_image
        rw [List.length_map, if_neg (not_not_intro h4), if_neg (not_not_intro h4),
          if_pos hf, if_pos hf]
      · rcases hfind : files.find? (fun x => !x.isFile) with _ | fl
        · exfalso
          revert hok
          unfold create_composite_image
          rw [if_neg (not_not_intro h4), if_neg hf, hfind]
          simp [Except.isOk, Except.toBool]
        · unfold create_composite_image
          rw [List.length_map, if_neg (not_not_intro h4), if_neg (not_not_intro h4),
            if_neg hf, if_neg hf, hfind, List.find?_map]
          have : (fun x : ImgFile => !x.isFile) ∘
              (fun fl : ImgFile => (⟨fl.path, fl.isFile, g fl.img⟩ : ImgFile)) =
              fun x : ImgFile => !x.isFile := rfl
          rw [this, hfind]
          rfl
    · unfold create_composite_image
      rw [List.length_map, if_pos h4, if_pos h4]

/-- Witness for C5: three files give the count error; a factor of 3/2 and
a factor of 0 give the scale error (with four files present); a missing
second file gives the file-not-found error for its path; and replacing
every image by a junk image leaves the error unchanged. -/
theorem c5_validation_before_joins_witness :
    create_composite_image [⟨"a", true, blank 1 1⟩, ⟨"b", true, blank 1 1⟩,
        ⟨"c", true, blank 1 1⟩] (1 / 2) =
      .error (.valueError "Exactly 4 images are required") ∧
    create_composite_image [⟨"a", true, blank 1 1⟩, ⟨"b", true, blank 1 1⟩,
        ⟨"c", true, blank 1 1⟩, ⟨"d", true, blank 1 1⟩] (3 / 2) =
      .error (.valueError "Downscale factor must be between 0 and 1") ∧
    create_composite_image [⟨"a", true, blank 1 1⟩, ⟨"b", true, blank 1 1⟩,
        ⟨"c", true, blank 1 1⟩, ⟨"d", true, blank 1 1⟩] 0 =
      .error (.valueError "Downscale factor must be between 0 and 1") ∧
    create_composite_image [⟨"a", true, blank 1 1⟩, ⟨"b", false, blank 1 1⟩,
        ⟨"c", true, blank 1 1⟩, ⟨"d", true, blank 1 1⟩] (1 / 2) =
      .error (.fileNotFoundError "Image file not found: b") ∧
    create_composite_image
        (([⟨"a", true, blank 1 1⟩, ⟨"b", false, blank 1 1⟩, ⟨"c", true, blank 1 1⟩,
          ⟨"d", true, blank 1 1⟩] : List ImgFile).map
          fun fl => ⟨fl.path, fl.isFile, blank 9 9⟩) (1 / 2) =
      create_composite_image [⟨"a", true, blank 1 1⟩, ⟨"b", false, blank 1 1⟩,
        ⟨"c", true, blank 1 1⟩, ⟨"d", true, blank 1 1⟩] (1 / 2) := by
  have h1 := (c5_validation_before_joins [⟨"a", true, blank 1 1⟩, ⟨"b", true, blank 1 1⟩,
    ⟨"c", true, blank 1 1⟩] (1 / 2)).1 (by decide)
  have h2 := (c5_validation_before_joins [⟨"a", true, blank 1 1⟩, ⟨"b", true, blank 1 1⟩,
    ⟨"c", true, blank 1 1⟩, ⟨"d", true, blank 1 1⟩] (3 / 2)).2.1 (by decide)
    (Or.inr (by norm_num))
  have h3 := (c5_validation_before_joins [⟨"a", true, blank 1 1⟩, ⟨"b", true, blank 1 1⟩,
    ⟨"c", true, blank 1 1⟩, ⟨"d", true, blank 1 1⟩] 0).2.1 (by decide) (Or.inl (by norm_num))
  have h4 := (c5_validation_before_joins [⟨"a", true, blank 1 1⟩, ⟨"b", false, blank 1 1⟩,
    ⟨"c", true, blank 1 1⟩, ⟨"d", true, blank 1 1⟩] (1 / 2)).2.2.1 ⟨"b", false, blank 1 1⟩
    (by decide) (by norm_num) (by norm_num) (by rfl)
  have h5 := (c5_validation_before_joins [⟨"a", true, blank 1 1⟩, ⟨"b", false, blank 1 1⟩,
    ⟨"c", true, blank 1 1⟩, ⟨"d", true, blank 1 1⟩] (1 / 2)).2.2.2 (fun _ => blank 9 9)
    (by rw [h4]; rfl)
  exact ⟨h1, h2, h3, h4, h5⟩

/-- C7: with factor 1 the downscale step performs no resize and keeps
the image unchanged; with a factor strictly between 0 and 1 the new
width and height are the floors of the originals times the factor,
computed per axis, and both dimensions strictly decrease whenever they
were positive. -/
theorem c7_downscale_dimensions (img : Img) (f : ℚ) :
    (f = 1 → downscale_step img f = img) ∧
    (0 < f → f < 1 →
       (downscale_step img f).width = (⌊(img.width : ℚ) * f⌋).toNat ∧
       (downscale_step img f).height = (⌊(img.height : ℚ) * f⌋).toNat ∧
       (0 < img.width → (downscale_step img f).width < img.width) ∧
       (0 < img.height → (downscale_step img f).height < img.height)) := by
  constructor
  · intro h
    subst h
    simp [downscale_step]
  · intro hpos hf
    unfold downscale_step
    rw [if_pos hf]
    refine ⟨rfl, rfl, ?_, ?_⟩
    · intro hw
      have h1 : ⌊(img.width : ℚ) * f⌋ < (img.width : ℤ) := by
        rw [Int.floor_lt]
        push_cast
        exact mul_lt_of_lt_one_right (by exact_mod_cast hw) hf
      show (⌊(img.width : ℚ) * f⌋).toNat < img.width
      omega
    · intro hh
      have h1 : ⌊(img.height : ℚ) * f⌋ < (img.height : ℤ) := by
        rw [Int.floor_lt]
        push_cast
        exact mul_lt_of_lt_one_right (by exact_mod_cast hh) hf
      show (⌊(img.height : ℚ) * f⌋).toNat < img.height
      omega

/-- Witness for C7 at a 5×4 image: factor 1 keeps it unchanged, factor
1/2 yields floor dimensions 2×2, strictly below 5 and 4. -/
theorem c7_downscale_dimensions_witness :
    downscale_step (blank 5 4) 1 = blank 5 4 ∧
    (downscale_step (blank 5 4) (1 / 2)).width = 2 ∧
    (downscale_step (blank 5 4) (1 / 2)).height = 2 ∧
    (downscale_step (blank 5 4) (1 / 2)).width < 5 ∧
    (downscale_step (blank 5 4) (1 / 2)).height < 4 := by
  have h2 := (c7_downscale_dimensions (blank 5 4) (1 / 2)).2 (by norm_num) (by norm_num)
  refine ⟨(c7_downscale_dimensions (blank 5 4) 1).1 rfl, ?_, ?_,
    h2.2.2.1 (by decide), h2.2.2.2 (by decide)⟩
  · rw [h2.1]
    show (⌊(5 : ℚ) * (1 / 2)⌋).toNat = 2
    norm_num
    decide
  · rw [h2.2.1]
    show (⌊(4 : ℚ) * (1 / 2)⌋).toNat = 2
    norm_num
    decide

/-- Dimensions of a successful result, `none` on error. -/
def resultDims : Except PyErr Img → Option (Nat × Nat)
  | .error _ => none
  | .ok i => some (i.width, i.height)

/-- Four existing 1×1 square images: a valid input by the claim's terms. -/
def unitQuad : List ImgFile :=
  [⟨"a", true, blank 1 1⟩, ⟨"b", true, blank 1 1⟩,
   ⟨"c", true, blank 1 1⟩, ⟨"d", true, blank 1 1⟩]

/-- C6: the code violates the claim.  Four readable 1×1 images with the
in-range factor 1/4 are a valid input, yet `create_composite_image`
returns a 0×0 image: the 2×2 grid composite is downscaled with
`int(2 * 0.25) = 0` on both axes, so the output dimensions are not
strictly positive and the final aspect-ratio computation
`final_image.width / final_image.height` divides by zero. -/
theorem c6_zero_dimension_output_bug :
    (0 : ℚ) < 1 / 4 ∧ (1 / 4 : ℚ) ≤ 1 ∧
    unitQuad.all (fun fl => fl.isFile && decide (0 < fl.img.width) &&
      decide (0 < fl.img.height)) = true ∧
    resultDims (create_composite_image unitQuad (1 / 4)) = some (0, 0) := by
  refine ⟨by norm_num, by norm_num, by decide, ?_⟩
  unfold create_composite_image
  rw [if_neg (by decide : ¬(unitQuad.length ≠ 4)),
    if_neg (by norm_num : ¬((1 / 4 : ℚ) ≤ 0 ∨ 1 < (1 / 4 : ℚ)))]
  show resultDims
    (.ok (downscale_step (arrange_images (unitQuad.map (fun f => f.img))) (1 / 4))) =
    some (0, 0)
  have hw : (arrange_images (unitQuad.map (fun f => f.img))).width = 2 := rfl
  have hh : (arrange_images (unitQuad.map (fun f => f.img))).height = 2 := rfl
  unfold downscale_step
  rw [if_pos (by norm_num : (1 / 4 : ℚ) < 1)]
  simp only [resultDims, resize, hw, hh]
  norm_num

theorem tPick_srcs (a b : TImg) : (tPick a b).srcs = a.srcs ++ b.srcs := by
  simp only [tPick]
  split <;> rfl

theorem t_portrait_not_landscape (x : TImg) (h : t_is_portrait x = true) :
    t_is_landscape x = false := by
  unfold t_is_portrait at h
  unfold t_is_landscape
  simp_all
  omega

theorem t_landscape_not_portrait (x : TImg) (h : t_is_landscape x = true) :
    t_is_portrait x = false := by
  unfold t_is_landscape at h
  unfold t_is_portrait
  simp_all
  omega

theorem arrange_trace_threeP_oddFirst (a b c d : TImg)
    (ha : t_is_portrait a = false) (hb : t_is_portrait b = true)
    (hc : t_is_portrait c = true) (hd : t_is_portrait d = true) :
    (arrange_images_trace [a, b, c, d]).srcs = b.srcs ++ c.srcs ++ d.srcs ++ d.srcs := by
  have hlb := t_portrait_not_landscape b hb
  have hlc := t_portrait_not_landscape c hc
  have hld := t_portrait_not_landscape d hd
  cases hla : t_is_landscape a <;>
    simp [arrange_images_trace, List.filter_cons, ha, hb, hc, hd, hla, hlb, hlc, hld,
      tPick_srcs, tJoinH, tJoinV, List.append_assoc]

theorem arrange_trace_threeP_oddSecond (a b c d : TImg)
    (ha : t_is_portrait a = true) (hb : t_is_portrait b = false)
    (hc : t_is_portrait c = true) (hd : t_is_portrait d = true) :
    (arrange_images_trace [a, b, c, d]).srcs = a.srcs ++ c.srcs ++ d.srcs ++ d.srcs := by
  have hla := t_portrait_not_landscape a ha
  have hlc := t_portrait_not_landscape c hc
  have hld := t_portrait_not_landscape d hd
  cases hlb : t_is_landscape b <;>
    simp [arrange_images_trace, List.filter_cons, ha, hb, hc, hd, hla, hlb, hlc, hld,
      tPick_srcs, tJoinH, tJoinV, List.append_assoc]

theorem arrange_trace_threeP_oddThird (a b c d : TImg)
    (ha : t_is_portrait a = true) (hb : t_is_portrait b = true)
    (hc : t_is_portrait c = false) (hd : t_is_portrait d = true) :
    (arrange_images_trace [a, b, c, d]).srcs = a.srcs ++ b.srcs ++ d.srcs ++ d.srcs := by
  have hla := t_portrait_not_landscape a ha
  have hlb := t_portrait_not_landscape b hb
  have hld := t_portrait_not_landscape d hd
  cases hlc : t_is_landscape c <;>
    simp [arrange_images_trace, List.filter_cons, ha, hb, hc, hd, hla, hlb, hlc, hld,
      tPick_srcs, tJoinH, tJoinV, List.append_assoc]

theorem arrange_trace_threeP_oddLast (a b c d : TImg)
    (ha : t_is_portrait a = true) (hb : t_is_portrait b = true)
    (hc : t_is_portrait c = true) (hd : t_is_portrait d = false) :
    (arrange_images_trace [a, b, c, d]).srcs = a.srcs ++ b.srcs ++ c.srcs ++ d.srcs := by
  have hla := t_portrait_not_landscape a ha
  have hlb := t_portrait_not_landscape b hb
  have hlc := t_portrait_not_landscape c hc
  cases hld : t_is_landscape d <;>
    simp [arrange_images_trace, List.filter_cons, ha, hb, hc, hd, hla, hlb, hlc, hld,
      tPick_srcs, tJoinH, tJoinV, List.append_assoc]

theorem arrange_trace_threeL_oddFirst (a b c d : TImg)
    (ha : t_is_landscape a = false) (hb : t_is_landscape b = true)
    (hc : t_is_landscape c = true) (hd : t_is_landscape d = true) :
    (arrange_images_trace [a, b, c, d]).srcs = b.srcs ++ c.srcs ++ d.srcs ++ d.srcs := by
  have hpb := t_landscape_not_portrait b hb
  have hpc := t_landscape_not_portrait c hc
  have hpd := t_landscape_not_portrait d hd
  cases hpa : t_is_portrait a <;>
    simp [arrange_images_trace, List.filter_cons, ha, hb, hc, hd, hpa, hpb, hpc, hpd,
      tPick_srcs, tJoinH, tJoinV, List.append_assoc]

theorem arrange_trace_threeL_oddSecond (a b c d : TImg)
    (ha : t_is_landscape a = true) (hb : t_is_landscape b = false)
    (hc : t_is_landscape c = true) (hd : t_is_landscape d = true) :
    (arrange_images_trace [a, b, c, d]).srcs = a.srcs ++ c.srcs ++ d.srcs ++ d.srcs := by
  have hpa := t_landscape_not_portrait a ha
  have hpc := t_landscape_not_portrait c hc
  have hpd := t_landscape_not_portrait d hd
  cases hpb : t_is_portrait b <;>
    simp [arrange_images_trace, List.filter_cons, ha, hb, hc, hd, hpa, hpb, hpc, hpd,
      tPick_srcs, tJoinH, tJoinV, List.append_assoc]

theorem arrange_trace_threeL_oddThird (a b c d : TImg)
    (ha : t_is_landscape a = true) (hb : t_is_landscape b = true)
    (hc : t_is_landscape c = false) (hd : t_is_landscape d = true) :
    (arrange_images_trace [a, b, c, d]).srcs = a.srcs ++ b.srcs ++ d.srcs ++ d.srcs := by
  have hpa := t_landscape_not_portrait a ha
  have hpb := t_landscape_not_portrait b hb
  have hpd := t_landscape_not_portrait d hd
  cases hpc : t_is_portrait c <;>
    simp [arrange_images_trace, List.filter_cons, ha, hb, hc, hd, hpa, hpb, hpc, hpd,
      tPick_srcs, tJoinH, tJoinV, List.append_assoc]

theorem arrange_trace_threeL_oddLast (a b c d : TImg)
    (ha : t_is_landscape a = true) (hb : t_is_landscape b = true)
    (hc : t_is_landscape c = true) (hd : t_is_landscape d = false) :
    (arrange_images_trace [a, b, c, d]).srcs = a.srcs ++ b.srcs ++ c.srcs ++ d.srcs := by
  have hpa := t_landscape_not_portrait a ha
  have hpb := t_landscape_not_portrait b hb
  have hpc := t_landscape_not_portrait c hc
  cases hpd : t_is_portrait d <;>
    simp [arrange_images_trace, List.filter_cons, ha, hb, hc, hd, hpa, hpb, hpc, hpd,
      tPick_srcs, tJoinH, tJoinV, List.append_assoc]

/-- C3 counterexample: a landscape image at raw index 0 followed by three
portraits (all provenance-tagged) lands in the three-portrait branch, and
the final composite contains input 3 twice and input 0 not at all — so it
is false that each of the four inputs appears exactly once. -/
theorem c3_counterexample_fourth_duplicated :
    (arrange_images_trace [⟨2, 1, [0]⟩, ⟨1, 2, [1]⟩, ⟨1, 2, [2]⟩, ⟨1, 2, [3]⟩]).srcs =
      [1, 2, 3, 3] ∧
    (arrange_images_trace [⟨2, 1, [0]⟩, ⟨1, 2, [1]⟩, ⟨1, 2, [2]⟩, ⟨1, 2, [3]⟩]).srcs.count 0 =
      0 ∧
    (arrange_images_trace [⟨2, 1, [0]⟩, ⟨1, 2, [1]⟩, ⟨1, 2, [2]⟩, ⟨1, 2, [3]⟩]).srcs.count 3 =
      2 := by
  have h := arrange_trace_threeP_oddFirst ⟨2, 1, [0]⟩ ⟨1, 2, [1]⟩ ⟨1, 2, [2]⟩ ⟨1, 2, [3]⟩
    (by decide) (by decide) (by decide) (by decide)
  refine ⟨by rw [h]; rfl, by rw [h]; decide, by rw [h]; decide⟩

/-- C3 amended: in the three-portrait branch (and symmetrically the
three-landscape branch) the final join always includes the input at raw
index 3 — every configuration below ends the provenance with `d.srcs`,
the raw-index-3 input.  When the single minority-orientation image sits
at raw index 3 the four inputs each contribute exactly once; when it
sits at any earlier raw index (0, 1 or 2) the majority image at raw
index 3 is included twice and the minority image does not appear at
all. -/
theorem c3_fourth_image_by_raw_index (a b c d : TImg) :
    (t_is_portrait a = false → t_is_portrait b = true → t_is_portrait c = true →
       t_is_portrait d = true →
       (arrange_images_trace [a, b, c, d]).srcs = b.srcs ++ c.srcs ++ d.srcs ++ d.srcs) ∧
    (t_is_portrait a = true → t_is_portrait b = false → t_is_portrait c = true →
       t_is_portrait d = true →
       (arrange_images_trace [a, b, c, d]).srcs = a.srcs ++ c.srcs ++ d.srcs ++ d.srcs) ∧
    (t_is_portrait a = true → t_is_portrait b = true → t_is_portrait c = false →
       t_is_portrait d = true →
       (arrange_images_trace [a, b, c, d]).srcs = a.srcs ++ b.srcs ++ d.srcs ++ d.srcs) ∧
    (t_is_portrait a = true → t_is_portrait b = true → t_is_portrait c = true →
       t_is_portrait d = false →
       (arrange_images_trace [a, b, c, d]).srcs = a.srcs ++ b.srcs ++ c.srcs ++ d.srcs) ∧
    (t_is_landscape a = false → t_is_landscape b = true → t_is_landscape c = true →
       t_is_landscape d = true →
       (arrange_images_trace [a, b, c, d]).srcs = b.srcs ++ c.srcs ++ d.srcs ++ d.srcs) ∧
    (t_is_landscape a = true → t_is_landscape b = false → t_is_landscape c = true →
       t_is_landscape d = true →
       (arrange_images_trace [a, b, c, d]).srcs = a.srcs ++ c.srcs ++ d.srcs ++ d.srcs) ∧
    (t_is_landscape a = true → t_is_landscape b = true → t_is_landscape c = false →
       t_is_landscape d = true →
       (arrange_images_trace [a, b, c, d]).srcs = a.srcs ++ b.srcs ++ d.srcs ++ d.srcs) ∧
    (t_is_landscape a = true → t_is_landscape b = true → t_is_landscape c = true →
       t_is_landscape d = false →
       (arrange_images_trace [a, b, c, d]).srcs = a.srcs ++ b.srcs ++ c.srcs ++ d.srcs) :=
  ⟨arrange_trace_threeP_oddFirst a b c d, arrange_trace_threeP_oddSecond a b c d,
   arrange_trace_threeP_oddThird a b c d, arrange_trace_threeP_oddLast a b c d,
   arrange_trace_threeL_oddFirst a b c d, arrange_trace_threeL_oddSecond a b c d,
   arrange_trace_threeL_oddThird a b c d, arrange_trace_threeL_oddLast a b c d⟩

/-- Witness for the amended C3 with provenance-tagged inputs: three
portraits before a landscape at index 3 give provenance [0,1,2,3] (each
input exactly once); a landscape at raw index 0, 1 or 2 among three
portraits gives [1,2,3,3], [0,2,3,3] and [0,1,3,3] respectively (index 3
twice, minority absent); a portrait at raw index 1 among three
landscapes gives [0,2,3,3]. -/
theorem c3_fourth_image_by_raw_index_witness :
    (arrange_images_trace [⟨1, 2, [0]⟩, ⟨1, 2, [1]⟩, ⟨1, 2, [2]⟩, ⟨2, 1, [3]⟩]).srcs =
      [0, 1, 2, 3] ∧
    (arrange_images_trace [⟨2, 1, [0]⟩, ⟨1, 2, [1]⟩, ⟨1, 2, [2]⟩, ⟨1, 2, [3]⟩]).srcs =
      [1, 2, 3, 3] ∧
    (arrange_images_trace [⟨1, 2, [0]⟩, ⟨2, 1, [1]⟩, ⟨1, 2, [2]⟩, ⟨1, 2, [3]⟩]).srcs =
      [0, 2, 3, 3] ∧
    (arrange_images_trace [⟨1, 2, [0]⟩, ⟨1, 2, [1]⟩, ⟨2, 1, [2]⟩, ⟨1, 2, [3]⟩]).srcs =
      [0, 1, 3, 3] ∧
    (arrange_images_trace [⟨2, 1, [0]⟩, ⟨1, 2, [1]⟩, ⟨2, 1, [2]⟩, ⟨2, 1, [3]⟩]).srcs =
      [0, 2, 3, 3] := by
  refine ⟨?_, ?_, ?_, ?_, ?_⟩
  · have h := (c3_fourth_image_by_raw_index ⟨1, 2, [0]⟩ ⟨1, 2, [1]⟩ ⟨1, 2, [2]⟩
      ⟨2, 1, [3]⟩).2.2.2.1 (by decide) (by decide) (by decide) (by decide)
    rw [h]
    rfl
  · have h := (c3_fourth_image_by_raw_index ⟨2, 1, [0]⟩ ⟨1, 2, [1]⟩ ⟨1, 2, [2]⟩
      ⟨1, 2, [3]⟩).1 (by decide) (by decide) (by decide) (by decide)
    rw [h]
    rfl
  · have h := (c3_fourth_image_by_raw_index ⟨1, 2, [0]⟩ ⟨2, 1, [1]⟩ ⟨1, 2, [2]⟩
      ⟨1, 2, [3]⟩).2.1 (by decide) (by decide) (by decide) (by decide)
    rw [h]
    rfl
  · have h := (c3_fourth_image_by_raw_index ⟨1, 2, [0]⟩ ⟨1, 2, [1]⟩ ⟨2, 1, [2]⟩
      ⟨1, 2, [3]⟩).2.2.1 (by decide) (by decide) (by decide) (by decide)
    rw [h]
    rfl
  · have h := (c3_fourth_image_by_raw_index ⟨2, 1, [0]⟩ ⟨1, 2, [1]⟩ ⟨2, 1, [2]⟩
      ⟨2, 1, [3]⟩).2.2.2.2.2.1 (by decide) (by decide) (by decide) (by decide)
    rw [h]
    rfl

/-- C8 counterexample: with a missing second file and factor 1 the run
fails with exit code 1, yet the standard error stream is empty — the
"Error: ..." line is printed to standard output — refuting the claim
that every failure writes its message to standard error. -/
theorem c8_counterexample_error_on_stdout :
    (main_run [⟨"a", true, blank 1 1⟩, ⟨"b", false, blank 1 1⟩, ⟨"c", true, blank 1 1⟩,
        ⟨"d", true, blank 1 1⟩] 1).exitCode = 1 ∧
    (main_run [⟨"a", true, blank 1 1⟩, ⟨"b", false, blank 1 1⟩, ⟨"c", true, blank 1 1⟩,
        ⟨"d", true, blank 1 1⟩] 1).stdout = ["Error: Image file not found: b"] ∧
    (main_run [⟨"a", true, blank 1 1⟩, ⟨"b", false, blank 1 1⟩, ⟨"c", true, blank 1 1⟩,
        ⟨"d", true, blank 1 1⟩] 1).stderr = [] := by
  have hc : create_composite_image [⟨"a", true, blank 1 1⟩, ⟨"b", false, blank 1 1⟩,
      ⟨"c", true, blank 1 1⟩, ⟨"d", true, blank 1 1⟩] 1 =
      .error (.fileNotFoundError "Image file not found: b") := by
    unfold create_composite_image
    rw [if_neg (by decide), if_neg (by norm_num)]
    rfl
  have hm : main_run [⟨"a", true, blank 1 1⟩, ⟨"b", false, blank 1 1⟩, ⟨"c", true, blank 1 1⟩,
      ⟨"d", true, blank 1 1⟩] 1 = ⟨1, ["Error: Image file not found: b"], []⟩ := by
    unfold main_run
    rw [if_neg (by decide), hc]
    rfl
  exact ⟨by rw [hm], by rw [hm], by rw [hm]⟩

/-- C8 amended: the front end exits 0 on success and nonzero on every
failure, but only the argument parser's wrong-image-count rejection
reaches standard error (exit code 2); failures caught in `main` (missing
file, invalid scale factor, codec error) print a human-readable
"Error: ..." line to standard output and exit 1, leaving standard error
empty. -/
theorem c8_exit_codes (files : List ImgFile) (f : ℚ) :
    (files.length ≠ 4 →
       (main_run files f).exitCode = 2 ∧ (main_run files f).stderr ≠ []) ∧
    (∀ e, files.length = 4 → create_composite_image files f = .error e →
       main_run files f = ⟨1, ["Error: " ++ pyErrMessage e], []⟩) ∧
    (∀ i, files.length = 4 → create_composite_image files f = .ok i →
       main_run files f = ⟨0, [], []⟩) := by
  refine ⟨?_, ?_, ?_⟩
  · intro h
    unfold main_run
    rw [if_pos h]
    exact ⟨rfl, by simp⟩
  · intro e h4 hc
    unfold main_run
    rw [if_neg (not_not_intro h4), hc]
  · intro i h4 hc
    unfold main_run
    rw [if_neg (not_not_intro h4), hc]

/-- Witness for C8: a three-file run exits 2 with a nonempty standard
error; a missing-file run exits 1 with the message on standard output;
a valid run of four 1×1 images at factor 1 exits 0. -/
theorem c8_exit_codes_witness :
    (main_run [⟨"a", true, blank 1 1⟩, ⟨"b", true, blank 1 1⟩,
        ⟨"c", true, blank 1 1⟩] 1).exitCode = 2 ∧
    (main_run [⟨"a", true, blank 1 1⟩, ⟨"b", true, blank 1 1⟩,
        ⟨"c", true, blank 1 1⟩] 1).stderr ≠ [] ∧
    main_run [⟨"a", true, blank 1 1⟩, ⟨"b", false, blank 1 1⟩, ⟨"c", true, blank 1 1⟩,
        ⟨"d", true, blank 1 1⟩] 1 =
      ⟨1, ["Error: " ++ pyErrMessage (.fileNotFoundError "Image file not found: b")], []⟩ ∧
    main_run [⟨"a", true, blank 1 1⟩, ⟨"b", true, blank 1 1⟩, ⟨"c", true, blank 1 1⟩,
        ⟨"d", true, blank 1 1⟩] 1 = ⟨0, [], []⟩ := by
  have h1 := (c8_exit_codes [⟨"a", true, blank 1 1⟩, ⟨"b", true, blank 1 1⟩,
    ⟨"c", true, blank 1 1⟩] 1).1 (by decide)
  have h2 := (c8_exit_codes [⟨"a", true, blank 1 1⟩, ⟨"b", false, blank 1 1⟩,
    ⟨"c", true, blank 1 1⟩, ⟨"d", true, blank 1 1⟩] 1).2.1
    (.fileNotFoundError "Image file not found: b") (by decide)
    (by unfold create_composite_image
        rw [if_neg (by decide), if_neg (by norm_num)]
        rfl)
  have h3 := (c8_exit_codes [⟨"a", true, blank 1 1⟩, ⟨"b", true, blank 1 1⟩,
    ⟨"c", true, blank 1 1⟩, ⟨"d", true, blank 1 1⟩] 1).2.2
    (arrange_images (List.map (fun fl => fl.img)
      ([⟨"a", true, blank 1 1⟩, ⟨"b", true, blank 1 1⟩, ⟨"c", true, blank 1 1⟩,
        ⟨"d", true, blank 1 1⟩] : List ImgFile))) (by decide)
    (by unfold create_composite_image
        rw [if_neg (by decide), if_neg (by norm_num)]
        show Except.ok (downscale_step _ 1) = _
        unfold downscale_step
        rw [if_neg (by norm_num)])
  exact ⟨h1.1, h1.2, h2, h3⟩

/-- Extensional equality of images: same dimensions and mode, and the
same pixel values at every in-bounds coordinate. -/
def pxEq (a b : Img) : Prop :=
  a.width = b.width ∧ a.height = b.height ∧ a.mode = b.mode ∧
  ∀ x y, x < a.width → y < a.height → a.px x y = b.px x y

/-- Extensional equality of command-line file arguments. -/
def fileEq (f g : ImgFile) : Prop :=
  f.path = g.path ∧ f.isFile = g.isFile ∧ pxEq f.img g.img

/-- Result relation: equal errors, or extensionally equal images. -/
def exceptPxEq : Except PyErr Img → Except PyErr Img → Prop
  | .error e, .error e' => e = e'
  | .ok i, .ok i' => pxEq i i'
  | _, _ => False

theorem pxEq_refl (a : Img) : pxEq a a :=
  ⟨rfl, rfl, rfl, fun _ _ _ _ => rfl⟩

theorem pxEq_is_portrait {a b : Img} (h : pxEq a b) : is_portrait a = is_portrait b := by
  unfold is_portrait
  rw [h.1, h.2.1]

theorem pxEq_is_landscape {a b : Img} (h : pxEq a b) : is_landscape a = is_landscape b := by
  unfold is_landscape
  rw [h.1, h.2.1]

theorem pxEq_joinH {a a' b b' : Img} (ha : pxEq a a') (hb : pxEq b b') :
    pxEq (join_pil_images_horizontally a b) (join_pil_images_horizontally a' b') := by
  obtain ⟨haw, hah, ham, hapx⟩ := ha
  obtain ⟨hbw, hbh, hbm, hbpx⟩ := hb
  refine ⟨?_, ?_, rfl, ?_⟩
  · rw [joinH_width, joinH_width, haw, hbw]
  · rw [joinH_height, joinH_height, hah, hbh]
  · intro x y hx hy
    rw [joinH_px, joinH_px, ← haw, ← hbw, ← hbh, ← hah]
    split_ifs with h1 h2
    · exact hbpx _ _ (by omega) (by omega)
    · exact hapx _ _ (by omega) (by omega)
    · rfl

theorem pxEq_joinV {a a' b b' : Img} (ha : pxEq a a') (hb : pxEq b b') :
    pxEq (join_pil_images_vertically a b) (join_pil_images_vertically a' b') := by
  obtain ⟨haw, hah, ham, hapx⟩ := ha
  obtain ⟨hbw, hbh, hbm, hbpx⟩ := hb
  refine ⟨?_, ?_, rfl, ?_⟩
  · rw [joinV_width, joinV_width, haw, hbw]
  · rw [joinV_height, joinV_height, hah, hbh]
  · intro x y hx hy
    rw [joinV_px, joinV_px, ← haw, ← hbw, ← hbh, ← hah]
    split_ifs with h1 h2
    · exact hbpx _ _ (by omega) (by omega)
    · exact hapx _ _ (by omega) (by omega)
    · rfl

theorem pxEq_pick {a a' b b' : Img} (ha : pxEq a a') (hb : pxEq b b') :
    pxEq (pick_arrangement a b) (pick_arrangement a' b') := by
  have h1 := pxEq_joinV ha hb
  have h2 := pxEq_joinH ha hb
  simp only [pick_arrangement]
  rw [h1.1, h1.2.1, h2.1, h2.2.1]
  split_ifs
  · exact h1
  · exact h2

theorem pxEq_resize {i i' : Img} (h : pxEq i i') (w v : Nat)
    (hw0 : i.width = 0 → w = 0) (hh0 : i.height = 0 → v = 0) :
    pxEq (resize i w v) (resize i' w v) := by
  obtain ⟨hiw, hih, him, hipx⟩ := h
  refine ⟨rfl, rfl, him, ?_⟩
  intro x y hx hy
  simp only [resize] at hx hy ⊢
  rw [← hiw, ← hih]
  have hW : 0 < i.width := by
    by_contra hc
    have h0 := hw0 (by omega)
    omega
  have hH : 0 < i.height := by
    by_contra hc
    have h0 := hh0 (by omega)
    omega
  refine hipx _ _ ?_ ?_
  · have hww : 0 < w := by omega
    rw [Nat.div_lt_iff_lt_mul hww]
    calc x * i.width < w * i.width := (Nat.mul_lt_mul_right hW).mpr hx
      _ = i.width * w := Nat.mul_comm _ _
  · have hvv : 0 < v := by omega
    rw [Nat.div_lt_iff_lt_mul hvv]
    calc y * i.height < v * i.height := (Nat.mul_lt_mul_right hH).mpr hy
      _ = i.height * v := Nat.mul_comm _ _

theorem pxEq_downscale {i i' : Img} (h : pxEq i i') (f : ℚ) :
    pxEq (downscale_step i f) (downscale_step i' f) := by
  unfold downscale_step
  rw [h.1, h.2.1]
  split_ifs with hf
  · refine pxEq_resize h _ _ ?_ ?_
    · intro hw
      rw [h.1] at hw
      simp [hw]
    · intro hh
      rw [h.2.1] at hh
      simp [hh]
  · exact h

theorem forall₂_filter_portrait {l l' : List Img} (h : List.Forall₂ pxEq l l') :
    List.Forall₂ pxEq (l.filter is_portrait) (l'.filter is_portrait) := by
  induction h with
  | nil => exact .nil
  | @cons a b t t' hab ht ih =>
    simp only [List.filter_cons]
    rw [pxEq_is_portrait hab]
    by_cases hp : is_portrait b = true
    · rw [if_pos hp, if_pos hp]
      exact .cons hab ih
    · rw [if_neg hp, if_neg hp]
      exact ih

theorem forall₂_filter_landscape {l l' : List Img} (h : List.Forall₂ pxEq l l') :
    List.Forall₂ pxEq (l.filter is_landscape) (l'.filter is_landscape) := by
  induction h with
  | nil => exact .nil
  | @cons a b t t' hab ht ih =>
    simp only [List.filter_cons]
    rw [pxEq_is_landscape hab]
    by_cases hp : is_landscape b = true
    · rw [if_pos hp, if_pos hp]
      exact .cons hab ih
    · rw [if_neg hp, if_neg hp]
      exact ih

theorem forall₂_getD {l l' : List Img} (h : List.Forall₂ pxEq l l') (n : Nat) :
    pxEq (l.getD n dfltImg) (l'.getD n dfltImg) := by
  induction h generalizing n with
  | nil => exact pxEq_refl _
  | @cons a b t t' hab ht ih =>
    cases n with
    | zero => exact hab
    | succ m => exact ih m

theorem pxEq_arrange {l l' : List Img} (h : List.Forall₂ pxEq l l') :
    pxEq (arrange_images l) (arrange_images l') := by
  have hP := forall₂_filter_portrait h
  have hL := forall₂_filter_landscape h
  have lenP := hP.length_eq
  have lenL := hL.length_eq
  have lenAll := h.length_eq
  simp only [arrange_images, join_images_horizontally, join_images_vertically]
  rw [lenP, lenL, lenAll]
  split_ifs
  · exact pxEq_joinH (pxEq_joinV (forall₂_getD hL 0) (forall₂_getD hL 1))
      (pxEq_joinV (forall₂_getD hL 2) (forall₂_getD hL 3))
  · exact pxEq_joinV (pxEq_joinH (forall₂_getD hP 0) (forall₂_getD hP 1))
      (pxEq_joinH (forall₂_getD hP 2) (forall₂_getD hP 3))
  · exact pxEq_pick (pxEq_joinH (forall₂_getD hP 0) (forall₂_getD hP 1))
      (pxEq_joinV (forall₂_getD hL 0) (forall₂_getD hL 1))
  · exact pxEq_pick (pxEq_pick (pxEq_joinH (forall₂_getD hP 0) (forall₂_getD hP 1))
      (forall₂_getD hP 2)) (forall₂_getD h 3)
  · exact pxEq_pick (pxEq_joinH (forall₂_getD hP 0) (forall₂_getD hP 1)) (forall₂_getD hP 2)
  · exact pxEq_pick (pxEq_pick (pxEq_joinV (forall₂_getD hL 0) (forall₂_getD hL 1))
      (forall₂_getD hL 2)) (forall₂_getD h 3)
  · exact pxEq_pick (pxEq_joinV (forall₂_getD hL 0) (forall₂_getD hL 1)) (forall₂_getD hL 2)
  · exact pxEq_joinV (pxEq_joinH (forall₂_getD h 0) (forall₂_getD h 1))
      (pxEq_joinH (forall₂_getD h 2) (forall₂_getD h 3))

theorem forall₂_map_img {fs fs' : List ImgFile} (h : List.Forall₂ fileEq fs fs') :
    List.Forall₂ pxEq (fs.map (fun f => f.img)) (fs'.map (fun f => f.img)) := by
  induction h with
  | nil => exact .nil
  | @cons a b t t' hab ht ih => exact .cons hab.2.2 ih

theorem find?_fileEq {fs fs' : List ImgFile} (h : List.Forall₂ fileEq fs fs') :
    (fs.find? (fun x => !x.isFile) = none ∧ fs'.find? (fun x => !x.isFile) = none) ∨
    (∃ a b, fs.find? (fun x => !x.isFile) = some a ∧
      fs'.find? (fun x => !x.isFile) = some b ∧ fileEq a b) := by
  induction h with
  | nil => exact .inl ⟨rfl, rfl⟩
  | @cons a b t t' hab ht ih =>
    by_cases hq : (!a.isFile) = true
    · have hqb : (!b.isFile) = true := by rw [← hab.2.1]; exact hq
      refine .inr ⟨a, b, ?_, ?_, hab⟩
      · simp [List.find?, hq]
      · simp [List.find?, hqb]
    · have hqa : (!a.isFile) = false := by simpa using hq
      have hqb : (!b.isFile) = false := by rw [← hab.2.1]; exact hqa
      simpa [List.find?, hqa, hqb] using ih

/-- C9: `create_composite_image` is deterministic — its result is fully
determined by the supplied paths, existence flags, dimensions, modes and
in-bounds pixel data of the four inputs together with the scale factor:
two runs on extensionally identical inputs produce the same error or
extensionally identical output images, with no other source of
variation. -/
theorem c9_deterministic_output (files files' : List ImgFile) (f : ℚ)
    (h : List.Forall₂ fileEq files files') :
    exceptPxEq (create_composite_image files f) (create_composite_image files' f) := by
  unfold create_composite_image
  rw [h.length_eq]
  split_ifs
  · rfl
  · rfl
  · rcases find?_fileEq h with ⟨h1, h2⟩ | ⟨a, b, ha, hb, hab⟩
    · rw [h1, h2]
      exact pxEq_downscale (pxEq_arrange (forall₂_map_img h)) f
    · rw [ha, hb]
      show PyErr.fileNotFoundError _ = PyErr.fileNotFoundError _
      rw [hab.1]

/-- Concrete run for the C9 witness: four existing 1×1 images whose pixel
maps are constantly (1,1,1). -/
def quadConst : List ImgFile :=
  [⟨"a", true, ⟨1, 1, "RGB", fun _ _ => (1, 1, 1)⟩⟩,
   ⟨"b", true, ⟨1, 1, "RGB", fun _ _ => (1, 1, 1)⟩⟩,
   ⟨"c", true, ⟨1, 1, "RGB", fun _ _ => (1, 1, 1)⟩⟩,
   ⟨"d", true, ⟨1, 1, "RGB", fun _ _ => (1, 1, 1)⟩⟩]

/-- Same four files, but each pixel map returns junk outside the 1×1
bounds: extensionally the same input. -/
def quadConst' : List ImgFile :=
  [⟨"a", true, ⟨1, 1, "RGB", fun x y => if x < 1 ∧ y < 1 then (1, 1, 1) else (9, 9, 9)⟩⟩,
   ⟨"b", true, ⟨1, 1, "RGB", fun x y => if x < 1 ∧ y < 1 then (1, 1, 1) else (9, 9, 9)⟩⟩,
   ⟨"c", true, ⟨1, 1, "RGB", fun x y => if x < 1 ∧ y < 1 then (1, 1, 1) else (9, 9, 9)⟩⟩,
   ⟨"d", true, ⟨1, 1, "RGB", fun x y => if x < 1 ∧ y < 1 then (1, 1, 1) else (9, 9, 9)⟩⟩]

/-- Witness for C9: the two concrete runs above are extensionally equal
inputs and yield extensionally equal results at factor 1/2. -/
theorem c9_deterministic_output_witness :
    List.Forall₂ fileEq quadConst quadConst' ∧
    exceptPxEq (create_composite_image quadConst (1 / 2))
      (create_composite_image quadConst' (1 / 2)) := by
  have h : List.Forall₂ fileEq quadConst quadConst' := by
    refine .cons ?_ (.cons ?_ (.cons ?_ (.cons ?_ .nil))) <;>
      exact ⟨rfl, rfl, rfl, rfl, rfl, fun x y hx hy => (if_pos ⟨hx, hy⟩).symm⟩
  exact ⟨h, c9_deterministic_output quadConst quadConst' (1 / 2) h⟩

end CompImage

